import Mathlib

/-!
Verification of the packaging descriptor of `sonic-chassisd`
(`sonic-chassisd/setup.py` in Azure/sonic-platform-daemons).

The repository content is a single declarative `setup(...)` call.  We embed
the keyword arguments of that call as a Lean structure and a concrete value,
and settle the specification's claims about the descriptor's fields, its
serialization round-trip, its classifier vocabulary and the files an
installation derives from it.
-/

/-- A package descriptor: the record of keyword arguments accepted by the
`setup(...)` call in `setup.py`.  Field names follow the source. -/
structure PackageDescriptor where
  name : String
  version : String
  description : String
  license : String
  author : String
  author_email : String
  url : String
  maintainer : String
  maintainer_email : String
  scripts : List String
  classifiers : List String
  keywords : String
deriving DecidableEq, Repr

/-- The descriptor built by the `setup(...)` call of
`sonic-chassisd/setup.py`, with every argument transcribed verbatim. -/
def chassisdSetup : PackageDescriptor :=
  { name := "sonic-chassisd"
    version := "1.0"
    description := "Chassis daemon for SONiC"
    license := "Apache 2.0"
    author := "SONiC Team"
    author_email := "linuxnetdev@microsoft.com"
    url := "https://github.com/Azure/sonic-platform-daemons"
    maintainer := "Manju Prabhu"
    maintainer_email := "manjunath.prabhu@nokia.com"
    scripts := ["scripts/chassisd"]
    classifiers :=
      [ "Development Status :: 4 - Beta"
      , "Environment :: No Input/Output (Daemon)"
      , "Intended Audience :: Developers"
      , "Intended Audience :: Information Technology"
      , "Intended Audience :: System Administrators"
      , "License :: OSI Approved :: Apache Software License"
      , "Natural Language :: English"
      , "Operating System :: POSIX :: Linux"
      , "Programming Language :: Python :: 2.7"
      , "Topic :: System :: Hardware" ]
    keywords := "sonic SONiC chassis Chassis daemon chassisd" }

/-- Splitting a character list on a single separator character; the list of
fields between separator occurrences (empty fields preserved). -/
def splitChars (sep : Char) : List Char → List (List Char)
  | [] => [[]]
  | c :: cs =>
    if c = sep then [] :: splitChars sep cs
    else
      match splitChars sep cs with
      | [] => [[c]]
      | w :: ws => (c :: w) :: ws

/-- Splitting a string on a single separator character. -/
def splitOnChar (sep : Char) (s : String) : List String :=
  (splitChars sep s.data).map String.mk

/-- Joining character lists with a single separator character between
consecutive entries. -/
def joinChars (sep : Char) : List (List Char) → List Char
  | [] => []
  | [w] => w
  | w :: ws => w ++ sep :: joinChars sep ws

/-- Joining strings with a single separator character between consecutive
entries. -/
def joinOnChar (sep : Char) (l : List String) : String :=
  String.mk (joinChars sep (l.map String.data))

/-- The characters of a list up to (excluding) the first occurrence of the
separator sequence `sep`; the whole list when `sep` never occurs. -/
def takeUntilSeq (sep : List Char) : List Char → List Char
  | [] => []
  | c :: cs =>
    if sep.isPrefixOf (c :: cs) then []
    else c :: takeUntilSeq sep cs

/-- Whether the separator sequence `sep` occurs contiguously inside the
list. -/
def hasSeq (sep : List Char) : List Char → Bool
  | [] => sep.isEmpty
  | c :: cs => sep.isPrefixOf (c :: cs) || hasSeq sep cs

/-- The (name, version) pair that identifies a distributable unit within a
package index. -/
def packageId (d : PackageDescriptor) : String × String :=
  (d.name, d.version)

/-- The descriptors declared by this repository: the single `setup(...)`
call of `sonic-chassisd/setup.py`. -/
def repoDescriptors : List PackageDescriptor :=
  [chassisdSetup]

/-- Modelled from the spec: serialization of the descriptor to the target
ecosystem's manifest format, which the spec describes only as a key/value
manifest preserving every field value verbatim (the concrete format and its
writer are external packaging tooling, not part of this repository).  List
fields are joined on a newline, which no declared path or classifier
contains. -/
def serializeManifest (d : PackageDescriptor) : List (String × String) :=
  [ ("name", d.name)
  , ("version", d.version)
  , ("description", d.description)
  , ("license", d.license)
  , ("author", d.author)
  , ("author-email", d.author_email)
  , ("url", d.url)
  , ("maintainer", d.maintainer)
  , ("maintainer-email", d.maintainer_email)
  , ("scripts", joinOnChar '\n' d.scripts)
  , ("classifiers", joinOnChar '\n' d.classifiers)
  , ("keywords", d.keywords) ]

/-- Modelled from the spec: parsing a manifest in the target ecosystem's
format back into a package descriptor (the parser is external packaging
tooling, not part of this repository).  Each field is looked up by its key;
a missing key makes the parse fail. -/
def parseManifest (m : List (String × String)) : Option PackageDescriptor := do
  let name ← m.lookup "name"
  let version ← m.lookup "version"
  let description ← m.lookup "description"
  let license ← m.lookup "license"
  let author ← m.lookup "author"
  let author_email ← m.lookup "author-email"
  let url ← m.lookup "url"
  let maintainer ← m.lookup "maintainer"
  let maintainer_email ← m.lookup "maintainer-email"
  let scripts ← m.lookup "scripts"
  let classifiers ← m.lookup "classifiers"
  let keywords ← m.lookup "keywords"
  pure
    { name := name
      version := version
      description := description
      license := license
      author := author
      author_email := author_email
      url := url
      maintainer := maintainer
      maintainer_email := maintainer_email
      scripts := splitOnChar '\n' scripts
      classifiers := splitOnChar '\n' classifiers
      keywords := keywords }

/-- The final path component of a script path: the name under which the
installed executable appears on the command search path. -/
def basename (p : String) : String :=
  (splitOnChar '/' p).getLastD p

/-- Modelled from the spec: the files an installation driven by this
manifest places on the invoker's command search path — one executable per
declared script, named by the script's basename, and nothing else (the
installer itself is external packaging tooling, not part of this
repository). -/
def installedFiles (d : PackageDescriptor) : List String :=
  d.scripts.map basename

/-- Modelled from the spec: the packaging ecosystem's accepted classifier
vocabulary (a fixed controlled reference set maintained by the packaging
index; the spec does not enumerate it, so the portion relevant to the
categories it names is reproduced here). -/
def classifierVocabulary : List String :=
  [ "Development Status :: 1 - Planning"
  , "Development Status :: 2 - Pre-Alpha"
  , "Development Status :: 3 - Alpha"
  , "Development Status :: 4 - Beta"
  , "Development Status :: 5 - Production/Stable"
  , "Development Status :: 6 - Mature"
  , "Development Status :: 7 - Inactive"
  , "Environment :: Console"
  , "Environment :: No Input/Output (Daemon)"
  , "Environment :: Web Environment"
  , "Intended Audience :: Developers"
  , "Intended Audience :: End Users/Desktop"
  , "Intended Audience :: Information Technology"
  , "Intended Audience :: System Administrators"
  , "License :: OSI Approved :: Apache Software License"
  , "License :: OSI Approved :: BSD License"
  , "License :: OSI Approved :: MIT License"
  , "Natural Language :: English"
  , "Natural Language :: French"
  , "Operating System :: OS Independent"
  , "Operating System :: POSIX"
  , "Operating System :: POSIX :: Linux"
  , "Programming Language :: Python"
  , "Programming Language :: Python :: 2.7"
  , "Programming Language :: Python :: 3"
  , "Topic :: Software Development"
  , "Topic :: System :: Hardware"
  , "Topic :: System :: Networking" ]

/-- The top-level category of a classifier string: the segment before the
first ` :: ` separator. -/
def topCategory (c : String) : String :=
  String.mk (takeUntilSeq " :: ".data c.data)

/-- The classifier categories the spec's interface table names for this
descriptor. -/
def specCategories : List String :=
  [ "Development Status"
  , "Environment"
  , "Intended Audience"
  , "License"
  , "Natural Language"
  , "Operating System"
  , "Programming Language"
  , "Topic" ]

/-- C1: serializing the descriptor built by the `setup(...)` call to the
manifest format and parsing it back reproduces the descriptor — hence every
field — exactly. -/
theorem chassisd_manifest_roundtrip :
    parseManifest (serializeManifest chassisdSetup) = some chassisdSetup := by
  decide

/-- C2: the descriptor's scripts field is a sequence of strings with exactly
one entry, and that entry is the path `scripts/chassisd`. -/
theorem chassisd_scripts_single :
    chassisdSetup.scripts = ["scripts/chassisd"] ∧
      chassisdSetup.scripts.length = 1 := by
  decide

/-- C3: the descriptor's name is `sonic-chassisd` and its version is `1.0`;
this (name, version) pair is the identifier of the distributable unit, and
within the repository's declared descriptors it identifies this one
uniquely. -/
theorem chassisd_name_version_id :
    chassisdSetup.name = "sonic-chassisd" ∧
      chassisdSetup.version = "1.0" ∧
      packageId chassisdSetup = ("sonic-chassisd", "1.0") ∧
      ∀ d ∈ repoDescriptors,
        packageId d = packageId chassisdSetup → d = chassisdSetup := by
  refine ⟨rfl, rfl, rfl, ?_⟩
  intro d hd _
  simpa [repoDescriptors] using hd

/-- C4: an installation driven by this manifest places exactly one file on
the command search path, the executable `chassisd` (the basename of the
single declared script path), and nothing else. -/
theorem chassisd_installed_files :
    installedFiles chassisdSetup = ["chassisd"] := by
  decide

/-- C5, counterexample: the descriptor's url field is not the scheme-less
string the spec's interface table shows. -/
theorem chassisd_url_not_schemeless :
    chassisdSetup.url ≠ "github.com/Azure/sonic-platform-daemons" := by
  decide

/-- C5, amended: the descriptor's homepage url field equals
`https://github.com/Azure/sonic-platform-daemons`; the spec's interface
table omits the `https://` scheme prefix. -/
theorem chassisd_url_value :
    chassisdSetup.url = "https://github.com/Azure/sonic-platform-daemons" := by
  decide

/-- C6: the descriptive and contact fields of the descriptor equal the
spec's table values exactly. -/
theorem chassisd_descriptive_fields :
    chassisdSetup.description = "Chassis daemon for SONiC" ∧
      chassisdSetup.license = "Apache 2.0" ∧
      chassisdSetup.author = "SONiC Team" ∧
      chassisdSetup.author_email = "linuxnetdev@microsoft.com" ∧
      chassisdSetup.maintainer = "Manju Prabhu" ∧
      chassisdSetup.maintainer_email = "manjunath.prabhu@nokia.com" := by
  decide

/-- C7: every classifier declared by the descriptor is a member of the
packaging ecosystem's accepted classifier vocabulary, and the declared list
covers each category the spec names: development status, environment,
intended audience, license, natural language, operating system,
programming-language runtime version, and topic. -/
theorem chassisd_classifiers_valid :
    (∀ c ∈ chassisdSetup.classifiers, c ∈ classifierVocabulary) ∧
      ∀ cat ∈ specCategories,
        ∃ c ∈ chassisdSetup.classifiers, topCategory c = cat := by
  decide

/-- C8: the descriptor's keywords field is the space-separated string
`sonic SONiC chassis Chassis daemon chassisd`, and splitting it on spaces
yields exactly those six keyword tags. -/
theorem chassisd_keywords :
    chassisdSetup.keywords = "sonic SONiC chassis Chassis daemon chassisd" ∧
      splitOnChar ' ' chassisdSetup.keywords =
        ["sonic", "SONiC", "chassis", "Chassis", "daemon", "chassisd"] := by
  decide

/-- C9: the url field in the code is an absolute URL beginning with the
scheme prefix `https://`: its value is
`https://github.com/Azure/sonic-platform-daemons`. -/
theorem chassisd_url_https :
    chassisdSetup.url = "https://github.com/Azure/sonic-platform-daemons" ∧
      "https://".data.isPrefixOf chassisdSetup.url.data = true := by
  decide

/-- C10: the classifiers list holds exactly 10 pairwise-distinct strings,
and every one of them contains the ` :: ` category separator. -/
theorem chassisd_classifiers_shape :
    chassisdSetup.classifiers.length = 10 ∧
      chassisdSetup.classifiers.Nodup ∧
      ∀ c ∈ chassisdSetup.classifiers, hasSeq " :: ".data c.data = true := by
  decide
